import Mathlib

/-!
Verification of the NMEA bearing reader sketches
(src/NMEA_Bearing_v2/NMEA_Bearing_v2.ino and src/unnamed/part_000).

Floating-point values are modelled as rationals; the Arduino `String`
values are modelled as Lean strings.  NMEA sentences reach the dispatch
code in `serialEvent` only through `getMessageDescription()` and
`getTerm(1)`, so a completed sentence is abstracted here as the pair of
those two strings.
-/

namespace NmeaBearing

/-- Character predicate for the whitespace skipped by the C library
strtod and atof conversions (isspace in the C locale). -/
def isSpaceC (c : Char) : Bool :=
  c = ' ' || c = '\t' || c = '\n' || c = '\x0b' || c = '\x0c' || c = '\r'

/-- Decimal digit test over characters. -/
def isDigitC (c : Char) : Bool :=
  48 ≤ c.toNat && c.toNat ≤ 57

/-- Numeric value of a decimal digit character. -/
def digitVal (c : Char) : ℕ :=
  c.toNat - 48

/-- Value of a list of decimal digit characters read most significant
first. -/
def digitsToNat (ds : List Char) : ℕ :=
  ds.foldl (fun a c => 10 * a + digitVal c) 0

/-- Parse an unsigned decimal mantissa (digits, optionally a decimal
point with further digits) from the front of a character list; fails
when no digit is present, as strtod does.  Returns the integer part,
the fraction digits' value, the number of fraction digits, and the
unconsumed remainder. -/
def parseMantissa (cs : List Char) : Option (ℕ × ℕ × ℕ × List Char) :=
  let p := cs.span isDigitC
  match p.2 with
  | '.' :: rest2 =>
      let q := rest2.span isDigitC
      if p.1.isEmpty && q.1.isEmpty then none
      else some (digitsToNat p.1, digitsToNat q.1, q.1.length, q.2)
  | _ => if p.1.isEmpty then none else some (digitsToNat p.1, 0, 0, p.2)

/-- Parse an optional decimal exponent part (e or E, optional sign,
digits) from the front of a character list.  When the letter is not
followed by at least one digit the exponent part is not consumed and
contributes a factor of one, as in strtod. -/
def parseExponent (cs : List Char) : ℤ :=
  match cs with
  | c :: rest =>
      if c = 'e' || c = 'E' then
        match rest with
        | '-' :: rest2 =>
            let q := rest2.span isDigitC
            if q.1.isEmpty then 0 else -(digitsToNat q.1 : ℤ)
        | '+' :: rest2 =>
            let q := rest2.span isDigitC
            if q.1.isEmpty then 0 else (digitsToNat q.1 : ℤ)
        | _ =>
            let q := rest.span isDigitC
            if q.1.isEmpty then 0 else (digitsToNat q.1 : ℤ)
      else 0
  | [] => 0

/-- The discrete scan performed by the C library strtod/atof on decimal
input: skip leading whitespace, read an optional sign, a decimal
mantissa and an optional exponent.  Yields the sign, integer part,
fraction digits' value, fraction length and exponent, or none when no
conversion can be performed. -/
def atofScan (s : String) : Option (Bool × ℕ × ℕ × ℕ × ℤ) :=
  let cs := s.toList.dropWhile isSpaceC
  let signed : Bool × List Char :=
    match cs with
    | '-' :: rest => (true, rest)
    | '+' :: rest => (false, rest)
    | _ => (false, cs)
  match parseMantissa signed.2 with
  | none => none
  | some (ip, fp, fl, rest) => some (signed.1, ip, fp, fl, parseExponent rest)

/-- Modelled library function: Arduino String::toFloat, which calls the
C library atof on the underlying buffer.  Skips leading whitespace,
reads an optional sign and a decimal mantissa with optional exponent,
and yields 0 when no conversion can be performed. -/
def toFloat (s : String) : ℚ :=
  match atofScan s with
  | none => 0
  | some (neg, ip, fp, fl, ex) =>
      let v : ℚ := ((ip : ℚ) + (fp : ℚ) / 10 ^ fl) * 10 ^ ex
      if neg then -v else v

/-- Truncation toward zero, the rounding used by the C fmod. -/
def rtrunc (q : ℚ) : ℤ :=
  if 0 ≤ q then Int.floor q else Int.ceil q

/-- The C library fmod: remainder of a / b with the sign of a,
a - b * trunc (a / b). -/
def cfmod (a b : ℚ) : ℚ :=
  a - b * (rtrunc (a / b) : ℚ)

/-- ConstrainAngle from NMEA_Bearing_v2.ino lines 209-217:
x = fmod(x + 180, 360); if (x < 0) x += 360; return x - 180. -/
def ConstrainAngle (x : ℚ) : ℚ :=
  let y := cfmod (x + 180) 360
  let y2 := if y < 0 then y + 360 else y
  y2 - 180

/-- Constant DIFF_POSITIVE_CHAR from the sketch. -/
def DIFF_POSITIVE_CHAR : Char := 'W'

/-- Constant DIFF_NEGATIVE_CHAR from the sketch. -/
def DIFF_NEGATIVE_CHAR : Char := 'E'

/-- Constant SPACE_CHAR from the sketch. -/
def SPACE_CHAR : Char := ' '

/-- The tracker state: the two global working variables of the sketch,
float bearingM = -1 and float bearingT = -1. -/
structure Tracker where
  bearingM : ℚ
  bearingT : ℚ
deriving DecidableEq, Repr

/-- The initial state of the globals: both bearings start at -1. -/
def initialTracker : Tracker :=
  { bearingM := -1, bearingT := -1 }

/-- The state update performed by serialEvent (lines 116-156) on one
completed sentence, given the sentence's message description and its
term(1).  "HDT" sets bearingT to toFloat of the term when the term is
non-empty, "HDM" does the same for bearingM, anything else (including
the commented-out "HDG" branch) leaves the state unchanged. -/
def serialEventStep (desc : String) (term1 : String) (st : Tracker) : Tracker :=
  if desc = "HDT" then
    if term1 ≠ "" then { st with bearingT := toFloat term1 } else st
  else if desc = "HDM" then
    if term1 ≠ "" then { st with bearingM := toFloat term1 } else st
  else st

/-- Reset (lines 162-167): bearingM = -1; bearingT = -1. -/
def Reset (_ : Tracker) : Tracker :=
  { bearingM := -1, bearingT := -1 }

/-- The true-bearing value shown by UpdateLcd (lines 182-186): the blank
marker (modelled as none) when bearingT < 0, otherwise the value. -/
def trueBearingDisplay (st : Tracker) : Option ℚ :=
  if st.bearingT < 0 then none else some st.bearingT

/-- The magnetic-bearing value shown by UpdateLcd (lines 174-179): the
blank marker (modelled as none) when bearingM < 0, otherwise the value. -/
def magneticBearingDisplay (st : Tracker) : Option ℚ :=
  if st.bearingM < 0 then none else some st.bearingM

/-- The compass-error value computed by UpdateLcd in
NMEA_Bearing_v2.ino lines 193-202: blank (none) when either bearing is
negative, otherwise ConstrainAngle (bearingM - bearingT). -/
def compassError (st : Tracker) : Option ℚ :=
  if st.bearingT < 0 ∨ st.bearingM < 0 then none
  else some (ConstrainAngle (st.bearingM - st.bearingT))

/-- The directional letter printed next to the compass error by
UpdateLcd lines 198-200: W when the difference is positive, E when
negative, a space when zero; blank (none) when either bearing is
negative. -/
def compassErrorLabel (st : Tracker) : Option Char :=
  if st.bearingT < 0 ∨ st.bearingM < 0 then none
  else
    let diff := ConstrainAngle (st.bearingM - st.bearingT)
    some (if 0 < diff then DIFF_POSITIVE_CHAR
          else if diff < 0 then DIFF_NEGATIVE_CHAR
          else SPACE_CHAR)

/-- The compass-error value computed by UpdateLcd in the duplicated
sketch src/unnamed/part_000 lines 140-149: blank (none) when either
bearing is negative, otherwise the raw subtraction bearingM - bearingT
with no normalization. -/
def compassErrorPart000 (st : Tracker) : Option ℚ :=
  if st.bearingT < 0 ∨ st.bearingM < 0 then none
  else some (st.bearingM - st.bearingT)

/-! ### Helper lemmas -/

/-- toFloat parses "045.0" as 45. -/
lemma toFloat_0450 : toFloat "045.0" = 45 := by
  have h : atofScan "045.0" = some (false, 45, 0, 1, 0) := by decide
  simp [toFloat, h]

/-- toFloat yields 0 on the non-numeric string "abc". -/
lemma toFloat_abc : toFloat "abc" = 0 := by
  have h : atofScan "abc" = none := by decide
  simp [toFloat, h]

/-- toFloat parses "-5.0" as -5. -/
lemma toFloat_neg50 : toFloat "-5.0" = -5 := by
  have h : atofScan "-5.0" = some (true, 5, 0, 1, 0) := by decide
  simp [toFloat, h]

/-- Truncation toward zero is the floor or the floor plus one. -/
lemma rtrunc_eq_or (q : ℚ) : rtrunc q = Int.floor q ∨ rtrunc q = Int.floor q + 1 := by
  unfold rtrunc
  split
  · exact Or.inl rfl
  · have h1 := Int.floor_le_ceil q
    have h2 := Int.ceil_le_floor_add_one q
    omega

/-- Closed form of ConstrainAngle: the fmod with negative correction
followed by the shift computes x minus 360 times the floor of
(x + 180) / 360. -/
lemma constrainAngle_eq_floor (x : ℚ) :
    ConstrainAngle x = x - 360 * (Int.floor ((x + 180) / 360) : ℚ) := by
  have hfl := Int.floor_le ((x + 180) / 360)
  have hfu := Int.lt_floor_add_one ((x + 180) / 360)
  rw [le_div_iff₀ (by norm_num : (0:ℚ) < 360)] at hfl
  rw [div_lt_iff₀ (by norm_num : (0:ℚ) < 360)] at hfu
  simp only [ConstrainAngle, cfmod]
  rcases rtrunc_eq_or ((x + 180) / 360) with h | h <;> rw [h]
  · rw [if_neg (by linarith)]
    ring
  · rw [if_pos (by push_cast at hfu ⊢; linarith)]
    push_cast
    ring

/-- ConstrainAngle lands in the half-open interval from -180
(inclusive) to 180 (exclusive). -/
lemma constrainAngle_mem (x : ℚ) :
    -180 ≤ ConstrainAngle x ∧ ConstrainAngle x < 180 := by
  rw [constrainAngle_eq_floor]
  have hfl := Int.floor_le ((x + 180) / 360)
  have hfu := Int.lt_floor_add_one ((x + 180) / 360)
  rw [le_div_iff₀ (by norm_num : (0:ℚ) < 360)] at hfl
  rw [div_lt_iff₀ (by norm_num : (0:ℚ) < 360)] at hfu
  constructor <;> linarith

/-- ConstrainAngle is invariant under shifts by integer multiples of
360. -/
lemma constrainAngle_add_int_mul (x : ℚ) (k : ℤ) :
    ConstrainAngle (x + 360 * k) = ConstrainAngle x := by
  rw [constrainAngle_eq_floor, constrainAngle_eq_floor]
  have h : (x + 360 * (k : ℚ) + 180) / 360 = (x + 180) / 360 + k := by
    field_simp
    ring
  rw [h, Int.floor_add_int]
  push_cast
  ring

/-- ConstrainAngle fixes exactly the angles already in the range from
-180 (inclusive) to 180 (exclusive). -/
lemma constrainAngle_eq_self_iff (x : ℚ) :
    ConstrainAngle x = x ↔ -180 ≤ x ∧ x < 180 := by
  rw [constrainAngle_eq_floor]
  constructor
  · intro h
    have hz : (Int.floor ((x + 180) / 360) : ℚ) = 0 := by linarith
    have hz2 : Int.floor ((x + 180) / 360) = 0 := by exact_mod_cast hz
    rw [Int.floor_eq_zero_iff, Set.mem_Ico] at hz2
    obtain ⟨h1, h2⟩ := hz2
    rw [le_div_iff₀ (by norm_num : (0:ℚ) < 360)] at h1
    rw [div_lt_one (by norm_num : (0:ℚ) < 360)] at h2
    constructor <;> linarith
  · intro h
    have hz : Int.floor ((x + 180) / 360) = 0 := by
      rw [Int.floor_eq_zero_iff, Set.mem_Ico]
      constructor
      · rw [le_div_iff₀ (by norm_num : (0:ℚ) < 360)]
        linarith [h.1]
      · rw [div_lt_one (by norm_num : (0:ℚ) < 360)]
        linarith [h.2]
    rw [hz]
    push_cast
    ring

/-- The value of ConstrainAngle at -270. -/
lemma constrainAngle_neg270 : ConstrainAngle (-270 : ℚ) = 90 := by
  rw [constrainAngle_eq_floor]
  have h : Int.floor (((-270 : ℚ) + 180) / 360) = -1 := by
    rw [Int.floor_eq_iff]
    constructor <;> norm_num
  rw [h]
  norm_num

/-- The value of ConstrainAngle at 45 - 315 = -270. -/
lemma constrainAngle_m270 : ConstrainAngle ((45 : ℚ) - 315) = 90 := by
  norm_num [constrainAngle_neg270]

/-- The value of ConstrainAngle at 0.8 - 353.6 = -352.8. -/
lemma constrainAngle_m3528 : ConstrainAngle ((0.8 : ℚ) - 353.6) = 7.2 := by
  rw [constrainAngle_eq_floor]
  have h : Int.floor (((0.8 : ℚ) - 353.6 + 180) / 360) = -1 := by
    rw [Int.floor_eq_iff]
    constructor <;> norm_num
  rw [h]
  norm_num

/-- The value of ConstrainAngle at 180. -/
lemma constrainAngle_180 : ConstrainAngle (180 : ℚ) = -180 := by
  rw [constrainAngle_eq_floor]
  have h : Int.floor (((180 : ℚ) + 180) / 360) = 1 := by
    rw [Int.floor_eq_iff]
    constructor <;> norm_num
  rw [h]
  norm_num

/-! ### Claim theorems -/

/-- C1: for every tracker state, the displayed compass error and its
directional letter are the absent value (none, not zero) whenever the
true or the magnetic bearing is displayed as unset; when both are
displayed as set values t and m, the compass error equals
ConstrainAngle (m - t) and its letter is DIFF_POSITIVE_CHAR (W) when
that value is positive, DIFF_NEGATIVE_CHAR (E) when negative, and the
no-deviation SPACE_CHAR when zero. -/
theorem compassError_spec (st : Tracker) :
    ((trueBearingDisplay st = none ∨ magneticBearingDisplay st = none) →
      compassError st = none ∧ compassErrorLabel st = none) ∧
    (∀ t m : ℚ, trueBearingDisplay st = some t → magneticBearingDisplay st = some m →
      compassError st = some (ConstrainAngle (m - t)) ∧
      compassErrorLabel st =
        some (if 0 < ConstrainAngle (m - t) then DIFF_POSITIVE_CHAR
              else if ConstrainAngle (m - t) < 0 then DIFF_NEGATIVE_CHAR
              else SPACE_CHAR)) := by
  by_cases hT : st.bearingT < 0
  · constructor
    · intro _
      simp [compassError, compassErrorLabel, hT]
    · intro t m ht hm
      simp [trueBearingDisplay, hT] at ht
  · by_cases hM : st.bearingM < 0
    · constructor
      · intro _
        simp [compassError, compassErrorLabel, hM]
      · intro t m ht hm
        simp [magneticBearingDisplay, hM] at hm
    · constructor
      · intro h
        rcases h with h | h
        · simp [trueBearingDisplay, hT] at h
        · simp [magneticBearingDisplay, hM] at h
      · intro t m ht hm
        simp [trueBearingDisplay, hT] at ht
        simp [magneticBearingDisplay, hM] at hm
        subst ht
        subst hm
        simp [compassError, compassErrorLabel, hT, hM]

/-- C1 witness: the theorem applied at the state with magnetic bearing
45 and true bearing 30. -/
theorem compassError_spec_witness :
    compassError { bearingM := 45, bearingT := 30 } =
      some (ConstrainAngle (45 - 30)) ∧
    compassErrorLabel { bearingM := 45, bearingT := 30 } =
      some (if 0 < ConstrainAngle (45 - 30) then DIFF_POSITIVE_CHAR
            else if ConstrainAngle (45 - 30) < 0 then DIFF_NEGATIVE_CHAR
            else SPACE_CHAR) :=
  (compassError_spec { bearingM := 45, bearingT := 30 }).2 30 45
    (by norm_num [trueBearingDisplay]) (by norm_num [magneticBearingDisplay])

/-- C2 counterexample: the claim says a non-empty, non-numeric term(1)
leaves the bearing unchanged, but processing an HDT sentence with
term(1) = "abc" from a state with trueBearing 50 stores toFloat "abc"
= 0, changing the state. -/
theorem hdt_nonnumeric_counterexample :
    (serialEventStep "HDT" "abc" { bearingM := -1, bearingT := 50 }).bearingT = 0 ∧
    serialEventStep "HDT" "abc" { bearingM := -1, bearingT := 50 } ≠
      { bearingM := -1, bearingT := 50 } := by
  constructor
  · simp [serialEventStep, toFloat_abc]
  · simp [serialEventStep, toFloat_abc, Tracker.mk.injEq]

/-- C2 amended: for a sentence of type HDT with v = term(1), if v is
non-empty then trueBearing is set to toFloat v (the number v parses to
when numeric, and the atof fallback value 0 when v is non-numeric);
only an empty v leaves trueBearing unchanged.  The identical rule
governs magneticBearing for type HDM. -/
theorem hdt_hdm_update_amended (st : Tracker) (v : String) :
    (v ≠ "" →
      serialEventStep "HDT" v st = { st with bearingT := toFloat v } ∧
      serialEventStep "HDM" v st = { st with bearingM := toFloat v }) ∧
    (v = "" →
      serialEventStep "HDT" v st = st ∧ serialEventStep "HDM" v st = st) := by
  constructor
  · intro h
    constructor <;> simp [serialEventStep, h]
  · intro h
    subst h
    constructor <;> simp [serialEventStep]

/-- C2 witness: the amended theorem applied at the initial state with
the non-empty term "045.0" and with the empty term. -/
theorem hdt_hdm_update_amended_witness :
    serialEventStep "HDT" "045.0" initialTracker =
      { initialTracker with bearingT := toFloat "045.0" } ∧
    serialEventStep "HDT" "" initialTracker = initialTracker :=
  ⟨((hdt_hdm_update_amended initialTracker "045.0").1 (by decide)).1,
   ((hdt_hdm_update_amended initialTracker "").2 rfl).1⟩

/-- C3 counterexample: at input 180 (which is 180 - 0 with 180 and 0
in the interval from 0 to 360) the normalizer yields -180, which lies
outside the claimed half-open interval from -180 exclusive to 180
inclusive. -/
theorem constrainAngle_range_counterexample :
    ConstrainAngle (180 : ℚ) = -180 ∧
    ¬ (-180 < ConstrainAngle (180 : ℚ) ∧ ConstrainAngle (180 : ℚ) ≤ 180) := by
  refine ⟨constrainAngle_180, ?_⟩
  rw [constrainAngle_180]
  norm_num

/-- C3 amended: the angle normalizer is a pure total function and, for
every input x, its result lies in the half-open interval from -180
inclusive to 180 exclusive and is congruent to x modulo 360. -/
theorem constrainAngle_range_amended (x : ℚ) :
    (-180 ≤ ConstrainAngle x ∧ ConstrainAngle x < 180) ∧
    ∃ k : ℤ, ConstrainAngle x = x - 360 * k :=
  ⟨constrainAngle_mem x, ⟨Int.floor ((x + 180) / 360), constrainAngle_eq_floor x⟩⟩

/-- C4 counterexample: normalize(0.8 - 353.6) is 7.2, which is not
within 1e-3 of the claimed -7.2, and normalize(45 - 315) is 90, not
the claimed -90. -/
theorem constrainAngle_examples_counterexample :
    ¬ |ConstrainAngle ((0.8 : ℚ) - 353.6) - (-7.2)| < 1 / 1000 ∧
    ConstrainAngle ((45 : ℚ) - 315) ≠ -90 := by
  rw [constrainAngle_m3528, constrainAngle_m270]
  constructor
  · rw [abs_of_nonneg (by norm_num)]
    norm_num
  · norm_num

/-- C4 amended: the normalizer maps the wraparound examples with the
signs the code actually produces: normalize(0.8 - 353.6) equals 7.2
exactly (in particular within 1e-3 of 7.2), and normalize(45 - 315)
equals exactly 90. -/
theorem constrainAngle_examples_amended :
    ConstrainAngle ((0.8 : ℚ) - 353.6) = 7.2 ∧
    |ConstrainAngle ((0.8 : ℚ) - 353.6) - 7.2| < 1 / 1000 ∧
    ConstrainAngle ((45 : ℚ) - 315) = 90 := by
  refine ⟨constrainAngle_m3528, ?_, constrainAngle_m270⟩
  rw [constrainAngle_m3528]
  norm_num

/-- C5 counterexample: with magnetic bearing 45 and true bearing 315
the part_000 sketch displays the raw difference -270 while the main
sketch displays the normalized value 90, so the two variants are not
equivalent. -/
theorem variants_equivalence_counterexample :
    compassErrorPart000 { bearingM := 45, bearingT := 315 } = some (-270) ∧
    compassError { bearingM := 45, bearingT := 315 } = some 90 ∧
    compassErrorPart000 { bearingM := 45, bearingT := 315 } ≠
      compassError { bearingM := 45, bearingT := 315 } := by
  have h1 : compassErrorPart000 { bearingM := 45, bearingT := 315 } = some (-270) := by
    norm_num [compassErrorPart000]
  have h2 : compassError { bearingM := 45, bearingT := 315 } = some 90 := by
    norm_num [compassError, constrainAngle_neg270]
  refine ⟨h1, h2, ?_⟩
  rw [h1, h2]
  norm_num

/-- C5 amended: for every pair of set bearings, the main sketch
displays the normalized difference ConstrainAngle (bearingM - bearingT)
while the part_000 sketch displays the raw subtraction
bearingM - bearingT, and the two displayed values agree exactly when
the raw difference already lies in the half-open interval from -180
inclusive to 180 exclusive. -/
theorem variants_equivalence_amended (st : Tracker)
    (h1 : ¬ st.bearingT < 0) (h2 : ¬ st.bearingM < 0) :
    compassErrorPart000 st = some (st.bearingM - st.bearingT) ∧
    compassError st = some (ConstrainAngle (st.bearingM - st.bearingT)) ∧
    (compassErrorPart000 st = compassError st ↔
      -180 ≤ st.bearingM - st.bearingT ∧ st.bearingM - st.bearingT < 180) := by
  have e1 : compassErrorPart000 st = some (st.bearingM - st.bearingT) := by
    simp [compassErrorPart000, h1, h2]
  have e2 : compassError st = some (ConstrainAngle (st.bearingM - st.bearingT)) := by
    simp [compassError, h1, h2]
  refine ⟨e1, e2, ?_⟩
  rw [e1, e2, Option.some_inj]
  constructor
  · intro h
    exact (constrainAngle_eq_self_iff _).mp h.symm
  · intro h
    exact ((constrainAngle_eq_self_iff _).mpr h).symm

/-- C5 witness: the amended theorem applied at the state with magnetic
bearing 45 and true bearing 30. -/
theorem variants_equivalence_amended_witness :
    compassErrorPart000 { bearingM := 45, bearingT := 30 } = some (45 - 30) :=
  (variants_equivalence_amended { bearingM := 45, bearingT := 30 }
    (by norm_num) (by norm_num)).1

/-- C6: for every input x and every integer k, the normalizer is
periodic with period 360: ConstrainAngle (x + 360 * k) equals
ConstrainAngle x. -/
theorem constrainAngle_periodic (x : ℚ) (k : ℤ) :
    ConstrainAngle (x + 360 * k) = ConstrainAngle x :=
  constrainAngle_add_int_mul x k

/-- C7: from every prior tracker state, processing a completed
sentence of type HDM with term(1) = "045.0" sets the magnetic bearing
to 45.0 and leaves the true bearing unchanged at its prior value. -/
theorem hdm_0450_update (st : Tracker) :
    (serialEventStep "HDM" "045.0" st).bearingM = 45 ∧
    (serialEventStep "HDM" "045.0" st).bearingT = st.bearingT := by
  simp [serialEventStep, toFloat_0450]

/-- C8: processing a completed sentence whose type code is neither
"HDT" nor "HDM" (for example the commented-out "HDG") has no effect on
the tracker state. -/
theorem other_type_no_effect (desc term1 : String) (st : Tracker)
    (h1 : desc ≠ "HDT") (h2 : desc ≠ "HDM") :
    serialEventStep desc term1 st = st := by
  simp [serialEventStep, h1, h2]

/-- C8 witness: the theorem applied to an "HDG" sentence at the
initial state. -/
theorem other_type_no_effect_witness :
    serialEventStep "HDG" "123.4" initialTracker = initialTracker :=
  other_type_no_effect "HDG" "123.4" initialTracker (by decide) (by decide)

/-- C9: Reset sets both bearings to the unset sentinel state from
every prior state, is idempotent, and afterwards the true bearing,
magnetic bearing and compass error queries all yield the absent
value. -/
theorem reset_spec (st : Tracker) :
    Reset st = initialTracker ∧
    Reset (Reset st) = Reset st ∧
    trueBearingDisplay (Reset st) = none ∧
    magneticBearingDisplay (Reset st) = none ∧
    compassError (Reset st) = none := by
  refine ⟨rfl, rfl, ?_, ?_, ?_⟩ <;>
    norm_num [Reset, trueBearingDisplay, magneticBearingDisplay, compassError]

/-- C10: because unset is encoded as a negative bearing tested with
< 0, an HDT or HDM sentence whose non-empty term(1) parses to a
negative number does store that number, yet the corresponding bearing
query and the compass error both report the absent value afterwards,
exactly as for a never-set bearing. -/
theorem negative_bearing_unset (st : Tracker) (v : String)
    (hne : v ≠ "") (hneg : toFloat v < 0) :
    (serialEventStep "HDT" v st).bearingT = toFloat v ∧
    trueBearingDisplay (serialEventStep "HDT" v st) = none ∧
    compassError (serialEventStep "HDT" v st) = none ∧
    (serialEventStep "HDM" v st).bearingM = toFloat v ∧
    magneticBearingDisplay (serialEventStep "HDM" v st) = none ∧
    compassError (serialEventStep "HDM" v st) = none := by
  simp [serialEventStep, hne, trueBearingDisplay, magneticBearingDisplay,
    compassError, hneg]

/-- C10 witness: the theorem applied with term "-5.0" (which parses to
-5) at a state with both bearings 100. -/
theorem negative_bearing_unset_witness :
    (serialEventStep "HDT" "-5.0" { bearingM := 100, bearingT := 100 }).bearingT =
      toFloat "-5.0" ∧
    trueBearingDisplay
      (serialEventStep "HDT" "-5.0" { bearingM := 100, bearingT := 100 }) = none ∧
    compassError
      (serialEventStep "HDT" "-5.0" { bearingM := 100, bearingT := 100 }) = none ∧
    (serialEventStep "HDM" "-5.0" { bearingM := 100, bearingT := 100 }).bearingM =
      toFloat "-5.0" ∧
    magneticBearingDisplay
      (serialEventStep "HDM" "-5.0" { bearingM := 100, bearingT := 100 }) = none ∧
    compassError
      (serialEventStep "HDM" "-5.0" { bearingM := 100, bearingT := 100 }) = none :=
  negative_bearing_unset { bearingM := 100, bearingT := 100 } "-5.0" (by decide)
    (by rw [toFloat_neg50]; norm_num)

end NmeaBearing
